import Mathlib

/-!
Shallow embedding of the cpp_sgr terminal-styling library.

The embedding follows `include/sgr.hpp` in its `sgr_ostream_wrapper`
revision (the current header), the older `sgr_ostream` revision, and the
color/token catalog shared by both.  An output sink (`std::ostream`) is
modelled as the `String` of bytes it has received so far; every stateful
operation takes the sink contents and returns the updated contents.
-/

namespace cpp_sgr

/-- `class sgr`: wraps a `std::string` payload (the numeric SGR parameter
list).  The protected constructor `sgr(const std::string)` is the anonymous
structure constructor. -/
structure sgr where
  str : String
deriving DecidableEq, Repr

/-- `static const std::string sgr::escape = "\033["`. -/
def sgr.escape : String := "\x1b["

/-- `static const std::string sgr::terminator = "m"`. -/
def sgr.terminator : String := "m"

/-- `sgr::toString()`: `escape + str + terminator`. -/
def sgr.toString (s : sgr) : String := sgr.escape ++ s.str ++ sgr.terminator

/-- `enum SGRCode` of the non-color SGR codes. -/
inductive SGRCode
  | RESET | BOLD | FAINT | ITALIC | UNDERLINE | BLINK_SLOW | BLINK_FAST
  | REVERSE | CONCEAL | STRIKE | FRAME | ENCIRCLE | OVERLINE
deriving DecidableEq, Repr

/-- Numeric value of each `SGRCode` enumerator
 (`RESET = 0, BOLD = 1, ..., FRAME = 51, ENCIRCLE = 52, OVERLINE = 53`). -/
def SGRCode.val : SGRCode → Nat
  | .RESET => 0
  | .BOLD => 1
  | .FAINT => 2
  | .ITALIC => 3
  | .UNDERLINE => 4
  | .BLINK_SLOW => 5
  | .BLINK_FAST => 6
  | .REVERSE => 7
  | .CONCEAL => 8
  | .STRIKE => 9
  | .FRAME => 51
  | .ENCIRCLE => 52
  | .OVERLINE => 53

/-- `sgr(const SGRCode code) : sgr(std::to_string(code))`. -/
def sgr.ofCode (c : SGRCode) : sgr := ⟨Nat.repr c.val⟩

/-- `operator+(const sgr & left, const sgr & right)`:
`sgr(left.str + ";" + right.str)`. -/
def sgrAdd (left right : sgr) : sgr := ⟨left.str ++ ";" ++ right.str⟩

/-- `operator,(const sgr & left, const sgr & right)`: `left + right`. -/
def sgrComma (left right : sgr) : sgr := sgrAdd left right

/-- `const sgr reset = sgr(sgr::RESET)`. -/
def reset : sgr := sgr.ofCode .RESET

/-- `const sgr bold = sgr(sgr::BOLD)`. -/
def bold : sgr := sgr.ofCode .BOLD

/-- `const sgr underline = sgr(sgr::UNDERLINE)`. -/
def underline : sgr := sgr.ofCode .UNDERLINE

/-- `struct invalid_color_component : public std::exception` — the one
exception type thrown by 24-bit color construction. -/
inductive invalid_color_component
  | mk
deriving DecidableEq, Repr

/-- `enum ANSIColor` of the 16 indexed 3/4-bit colors. -/
inductive ANSIColor
  | BLACK | RED | GREEN | YELLOW | BLUE | MAGENTA | CYAN | WHITE
  | BRIGHT_BLACK | BRIGHT_RED | BRIGHT_GREEN | BRIGHT_YELLOW
  | BRIGHT_BLUE | BRIGHT_MAGENTA | BRIGHT_CYAN | BRIGHT_WHITE
deriving DecidableEq, Repr

/-- Numeric value of each `ANSIColor` enumerator
 (`BLACK = 30, ..., WHITE = 37, BRIGHT_BLACK = 90, ..., BRIGHT_WHITE = 97`). -/
def ANSIColor.val : ANSIColor → Nat
  | .BLACK => 30
  | .RED => 31
  | .GREEN => 32
  | .YELLOW => 33
  | .BLUE => 34
  | .MAGENTA => 35
  | .CYAN => 36
  | .WHITE => 37
  | .BRIGHT_BLACK => 90
  | .BRIGHT_RED => 91
  | .BRIGHT_GREEN => 92
  | .BRIGHT_YELLOW => 93
  | .BRIGHT_BLUE => 94
  | .BRIGHT_MAGENTA => 95
  | .BRIGHT_CYAN => 96
  | .BRIGHT_WHITE => 97

/-- `color::verifyColorComponent(const int c)`: `c <= 255 && c >= 0`. -/
def verifyColorComponent (c : Int) : Bool := decide (c ≤ 255) && decide (c ≥ 0)

/-- `color::color(const ANSIColor code, bool foreground)`:
`sgr(std::to_string(foreground ? code : (code + 10)))`. -/
def color.ofANSI (code : ANSIColor) (foreground : Bool) : sgr :=
  ⟨Nat.repr (if foreground then code.val else code.val + 10)⟩

/-- `color::color(const int r, const int g, const int b, bool foreground)`:
builds `sgr((foreground ? "38;2;" : "48;2;") + r + ";" + g + ";" + b)` and
throws `invalid_color_component` unless all three components pass
`verifyColorComponent`.  A throwing constructor yields no object, so the
fallible construction is an `Except`. -/
def color.ofRGB (r g b : Int) (foreground : Bool) :
    Except invalid_color_component sgr :=
  if verifyColorComponent r && verifyColorComponent g && verifyColorComponent b
  then .ok ⟨(if foreground then "38;2;" else "48;2;") ++ toString r ++ ";" ++
    toString g ++ ";" ++ toString b⟩
  else .error .mk

/-- `color::fg(const int r, const int g, const int b)`. -/
def color.fgRGB (r g b : Int) : Except invalid_color_component sgr :=
  color.ofRGB r g b true

/-- `color::bg(const int r, const int g, const int b)`. -/
def color.bgRGB (r g b : Int) : Except invalid_color_component sgr :=
  color.ofRGB r g b false

/-!
### `sgr_ostream_wrapper` (current revision)

The wrapper shares the underlying stream buffer, so its only own state is
the `shouldReset` flag; the sink contents are threaded separately.
-/

/-- `class sgr_ostream_wrapper`: own state is the `bool shouldReset` flag
(the wrapped `std::ostream` shares the sink's buffer, modelled as the
threaded sink `String`). -/
structure sgr_ostream_wrapper where
  shouldReset : Bool
deriving DecidableEq, Repr

/-- `sgr_ostream_wrapper(std::ostream & stream)`: binds the sink's buffer
and sets `shouldReset(true)`; writes nothing. -/
def sgr_ostream_wrapper.ofStream : sgr_ostream_wrapper := ⟨true⟩

/-- Move constructor `sgr_ostream_wrapper(sgr_ostream_wrapper && other)`:
the destination copies `other.shouldReset`, then `other.shouldReset = false`.
Returns (destination, moved-from source). -/
def sgr_ostream_wrapper.move (other : sgr_ostream_wrapper) :
    sgr_ostream_wrapper × sgr_ostream_wrapper :=
  (⟨other.shouldReset⟩, ⟨false⟩)

/-- Generic `operator<<(const T & t)`: `stream << t; return *this`.  The
argument is modelled by the byte string its stream insertion produces.
Returns (the same wrapper, updated sink). -/
def sgr_ostream_wrapper.insert (w : sgr_ostream_wrapper) (sink : String)
    (t : String) : sgr_ostream_wrapper × String :=
  (w, sink ++ t)

/-- Specialization `operator<< <sgr>(const sgr & c)`:
`stream << c.toString(); return *this`. -/
def sgr_ostream_wrapper.insertSgr (w : sgr_ostream_wrapper) (sink : String)
    (c : sgr) : sgr_ostream_wrapper × String :=
  (w, sink ++ c.toString)

/-- `sgr_ostream_wrapper::kill()`: if `shouldReset`, clear the flag and
insert `reset.toString()`; otherwise do nothing.  Invoked by the
destructor. -/
def sgr_ostream_wrapper.kill (w : sgr_ostream_wrapper) (sink : String) :
    sgr_ostream_wrapper × String :=
  if w.shouldReset then (⟨false⟩, sink ++ reset.toString) else (w, sink)

/-- Free `operator<<(std::ostream & out, const sgr & c)`: constructs a local
wrapper over `out`, inserts `c`, and returns `std::move(wrapper)`; the
moved-from local is destroyed (its `kill` runs) before the caller sees the
result.  Returns (returned wrapper, updated sink). -/
def ostreamInsertSgr (sink : String) (c : sgr) :
    sgr_ostream_wrapper × String :=
  let wrapper := sgr_ostream_wrapper.ofStream
  let ws := wrapper.insertSgr sink c
  let mv := ws.1.move
  let ks := mv.2.kill ws.2
  (mv.1, ks.2)

/-- One chained item in a stream-insertion statement: a style token or
plain printable data (modelled by the bytes its insertion produces). -/
inductive StreamItem
  | tok (c : sgr)
  | txt (s : String)
deriving DecidableEq, Repr

/-- Wrapper-revision semantics of the full statement
`out << c << item₁ << ... << itemₙ;`: the first insertion produces the
wrapper (via `ostreamInsertSgr`), the chained insertions go through the
member `operator<<`s, and at the end of the full expression the wrapper's
destructor runs `kill`.  Returns the final sink contents. -/
def runWrapperStatement (c : sgr) (items : List StreamItem) (sink : String) :
    String :=
  let start := ostreamInsertSgr sink c
  let fin := items.foldl
    (fun (p : sgr_ostream_wrapper × String) it =>
      match it with
      | .tok c2 => p.1.insertSgr p.2 c2
      | .txt s => p.1.insert p.2 s) start
  (fin.1.kill fin.2).2

/-!
### `sgr_ostream` (older revision)

`class sgr_ostream : public std::ostream` with a `bool dead` flag.
-/

/-- `class sgr_ostream`: own state is the `bool dead = false` flag. -/
structure sgr_ostream where
  dead : Bool
deriving DecidableEq, Repr

/-- `sgr_ostream(std::ostream & stream, const sgr & sgr)`: binds the
buffer and inserts `sgr.toString()`; `dead` starts `false`. -/
def sgr_ostream.ctor (sink : String) (c : sgr) : sgr_ostream × String :=
  (⟨false⟩, sink ++ c.toString)

/-- `sgr_ostream::kill()`: if not `dead`, set `dead = true` and insert
`reset.toString()`.  Invoked by the destructor. -/
def sgr_ostream.kill (s : sgr_ostream) (sink : String) :
    sgr_ostream × String :=
  if !s.dead then (⟨true⟩, sink ++ reset.toString) else (s, sink)

/-- Member `sgr_ostream::operator<<(const sgr & c)`: pre-emptively `kill`s
this stream (writing the reset before the new SGR), then returns
`sgr_ostream(*this, c)`.  Returns (new stream, killed old stream, sink). -/
def sgr_ostream.insertSgr (s : sgr_ostream) (sink : String) (c : sgr) :
    sgr_ostream × sgr_ostream × String :=
  let ks := s.kill sink
  let ns := sgr_ostream.ctor ks.2 c
  (ns.1, ks.1, ns.2)

/-- `sgr_ostream`-revision semantics of the full statement
`out << c << item₁ << ... << itemₙ;`: the free `operator<<` constructs the
first `sgr_ostream`; each further token insertion kills the current stream
and yields a fresh temporary; plain data goes through the inherited
`std::ostream` insertion.  At the end of the full expression all the
temporaries are destroyed, newest first, each running `kill`. -/
def runOstreamStatement (c : sgr) (items : List StreamItem) (sink : String) :
    String :=
  let start := sgr_ostream.ctor sink c
  let fin := items.foldl
    (fun (p : sgr_ostream × List sgr_ostream × String) it =>
      match it with
      | .tok c2 =>
        let r := p.1.insertSgr p.2.2 c2
        (r.1, r.2.1 :: p.2.1, r.2.2)
      | .txt s => (p.1, p.2.1, p.2.2 ++ s)) (start.1, [], start.2)
  let k := fin.1.kill fin.2.2
  fin.2.1.foldl (fun sink s => (s.kill sink).2) k.2

/-- `kill` invoked `n` times in a row on a wrapper (defensive repeated
finalization). -/
def sgr_ostream_wrapper.killN :
    Nat → sgr_ostream_wrapper → String → sgr_ostream_wrapper × String
  | 0, w, sink => (w, sink)
  | n + 1, w, sink =>
    let k := w.kill sink
    sgr_ostream_wrapper.killN n k.1 k.2

/-- `kill` invoked `n` times in a row on an `sgr_ostream` (defensive
repeated finalization, older revision). -/
def sgr_ostream.killN :
    Nat → sgr_ostream → String → sgr_ostream × String
  | 0, s, sink => (s, sink)
  | n + 1, s, sink =>
    let k := s.kill sink
    sgr_ostream.killN n k.1 k.2

/-- A chain of `n` ownership transfers: each step moves the wrapper
(`sgr_ostream_wrapper(sgr_ostream_wrapper &&)`) and then destroys the
moved-from source (its destructor runs `kill`), exactly as when the wrapper
is returned from `operator<<(std::ostream &, const sgr &)` or handed along
further writes. -/
def runMoveChain :
    Nat → sgr_ostream_wrapper → String → sgr_ostream_wrapper × String
  | 0, w, sink => (w, sink)
  | n + 1, w, sink =>
    let mv := w.move
    let k := mv.2.kill sink
    runMoveChain n mv.1 k.2

/-!
### Helper lemmas
-/

/-- Repeated `kill` on a wrapper whose flag is already cleared neither
writes nor changes state. -/
lemma killN_cleared (n : Nat) (sink : String) :
    sgr_ostream_wrapper.killN n ⟨false⟩ sink = (⟨false⟩, sink) := by
  induction n generalizing sink with
  | zero => rfl
  | succ n ih => simpa [sgr_ostream_wrapper.killN, sgr_ostream_wrapper.kill] using ih sink

/-- Repeated `kill` on a dead `sgr_ostream` neither writes nor changes
state. -/
lemma ostream_killN_dead (n : Nat) (sink : String) :
    sgr_ostream.killN n ⟨true⟩ sink = (⟨true⟩, sink) := by
  induction n generalizing sink with
  | zero => rfl
  | succ n ih => simpa [sgr_ostream.killN, sgr_ostream.kill] using ih sink

/-- A move chain writes nothing to the sink and hands the flag unchanged to
the final owner. -/
lemma runMoveChain_eq (n : Nat) (w : sgr_ostream_wrapper) (sink : String) :
    runMoveChain n w sink = (⟨w.shouldReset⟩, sink) := by
  induction n generalizing w sink with
  | zero => rfl
  | succ n ih =>
    simpa [runMoveChain, sgr_ostream_wrapper.move, sgr_ostream_wrapper.kill]
      using ih ⟨w.shouldReset⟩ sink

/-- Closed computation: the bold escape, the text, and one reset concatenate
to the expected byte string. -/
lemma bold_chain_bytes :
    bold.toString ++ ("Bold string" ++ reset.toString)
      = "\x1b[1mBold string\x1b[0m" := by decide

/-- Closed computation: two reset escapes concatenate to the doubled byte
string. -/
lemma reset_twice_bytes :
    reset.toString ++ reset.toString = "\x1b[0m\x1b[0m" := by decide

/-!
### Claims
-/

/-- C1: for every plain output sink, writing `bold` and then the literal
text `"Bold string"` through the resulting wrapper, with no explicit reset,
and letting the wrapper be destroyed immediately after, appends to the sink
exactly the bytes `"\x1b[1mBold string\x1b[0m"` — the token's escape
string, the text verbatim, and a single trailing reset. -/
theorem bold_string_single_reset (sink : String) :
    runWrapperStatement bold [.txt "Bold string"] sink
      = sink ++ "\x1b[1mBold string\x1b[0m" := by
  show ((sink ++ bold.toString) ++ "Bold string") ++ reset.toString
      = sink ++ "\x1b[1mBold string\x1b[0m"
  rw [String.append_assoc, String.append_assoc, bold_chain_bytes]

/-- C2: at most one reset sequence is emitted automatically per session
lifetime: invoking the destructor's `kill` any positive number of times
emits the reset string exactly once when the flag is armed and never again
— the first invocation clears the flag (`shouldReset` in the wrapper
revision, `dead` in the `sgr_ostream` revision) and every later invocation
is a no-op. -/
theorem kill_at_most_one_reset (n : Nat) (hn : 1 ≤ n)
    (w : sgr_ostream_wrapper) (s : sgr_ostream) (sink : String) :
    sgr_ostream_wrapper.killN n w sink
      = (⟨false⟩, if w.shouldReset then sink ++ reset.toString else sink) ∧
    sgr_ostream.killN n s sink
      = (⟨true⟩, if s.dead then sink else sink ++ reset.toString) := by
  obtain ⟨m, rfl⟩ : ∃ m, n = m + 1 := ⟨n - 1, by omega⟩
  constructor
  · cases w with
    | mk flag =>
      cases flag <;>
        simp [sgr_ostream_wrapper.killN, sgr_ostream_wrapper.kill, killN_cleared]
  · cases s with
    | mk d =>
      cases d <;>
        simp [sgr_ostream.killN, sgr_ostream.kill, ostream_killN_dead]

/-- Witness for C2 at `n = 2`, an armed wrapper and a live `sgr_ostream`,
on the empty sink. -/
theorem kill_at_most_one_reset_witness :
    1 ≤ 2 ∧
    sgr_ostream_wrapper.killN 2 ⟨true⟩ "" = (⟨false⟩, "\x1b[0m") ∧
    sgr_ostream.killN 2 ⟨false⟩ "" = (⟨true⟩, "\x1b[0m") := by
  refine ⟨by decide, ?_, ?_⟩
  · rw [(kill_at_most_one_reset 2 (by decide) ⟨true⟩ ⟨false⟩ "").1]; decide
  · rw [(kill_at_most_one_reset 2 (by decide) ⟨true⟩ ⟨false⟩ "").2]; decide

/-- C3 counterexample: writing the reset token as the very first token of a
brand-new session does NOT put the session in an idle state — the returned
wrapper still has `shouldReset = true`, and ending the session immediately
produces a second `"\x1b[0m"` on the sink. -/
theorem reset_write_not_idle_cex :
    (ostreamInsertSgr "" reset).1.shouldReset = true ∧
    runWrapperStatement reset [] "" = "\x1b[0m\x1b[0m" ∧
    runWrapperStatement reset [] "" ≠ "\x1b[0m" := by decide

/-- C3 amended: writing the reset token to a session leaves the reset
obligation armed (a brand-new session starts with `shouldReset = true` even
when the very first token is the reset token, and the `sgr` insertion never
touches the flag), so when the session ends the automatic finalize emits
the reset string again and a second `"\x1b[0m"` appears on the sink. -/
theorem reset_write_keeps_obligation (sink : String) :
    (ostreamInsertSgr sink reset).1.shouldReset = true ∧
    runWrapperStatement reset [] sink = sink ++ "\x1b[0m\x1b[0m" := by
  refine ⟨rfl, ?_⟩
  show (sink ++ reset.toString) ++ reset.toString = sink ++ "\x1b[0m\x1b[0m"
  rw [String.append_assoc, reset_twice_bytes]

/-- C4: whenever a wrapper is handed off by move, the reset obligation
moves with it — the destination copies the flag, the source's flag is
cleared so its finalize is a no-op — and across any chain of such
transfers, each moved-from owner finalized in turn, the chain itself writes
nothing (never a premature discharge) and the final owner's finalize
appends exactly one reset (never zero, never two). -/
theorem ownership_transfer_exactly_one_reset :
    (∀ w : sgr_ostream_wrapper,
      w.move.1.shouldReset = w.shouldReset ∧
      w.move.2.shouldReset = false ∧
      ∀ sink, (w.move.2.kill sink).2 = sink) ∧
    (∀ (n : Nat) (sink : String),
      (runMoveChain n sgr_ostream_wrapper.ofStream sink).2 = sink ∧
      ((runMoveChain n sgr_ostream_wrapper.ofStream sink).1.kill
          (runMoveChain n sgr_ostream_wrapper.ofStream sink).2).2
        = sink ++ reset.toString) := by
  constructor
  · intro w
    exact ⟨rfl, rfl, fun sink => by
      simp [sgr_ostream_wrapper.move, sgr_ostream_wrapper.kill]⟩
  · intro n sink
    constructor <;>
      simp [runMoveChain_eq, sgr_ostream_wrapper.ofStream, sgr_ostream_wrapper.kill]

/-- C5: for all integer components with at least one outside `[0, 255]`,
24-bit color construction (foreground or background) fails synchronously
with `invalid_color_component` and produces no token. -/
theorem rgb_out_of_range_error (r g b : Int) (fg : Bool)
    (h : ¬(0 ≤ r ∧ r ≤ 255) ∨ ¬(0 ≤ g ∧ g ≤ 255) ∨ ¬(0 ≤ b ∧ b ≤ 255)) :
    color.ofRGB r g b fg = .error .mk := by
  unfold color.ofRGB
  split
  · rename_i hc
    exfalso
    simp only [verifyColorComponent, Bool.and_eq_true, decide_eq_true_eq,
      ge_iff_le] at hc
    omega
  · rfl

/-- Witness for C5 at `r = 256`. -/
theorem rgb_out_of_range_error_witness :
    (¬((0:Int) ≤ 256 ∧ (256:Int) ≤ 255) ∨ ¬((0:Int) ≤ 0 ∧ (0:Int) ≤ 255) ∨
      ¬((0:Int) ≤ 0 ∧ (0:Int) ≤ 255)) ∧
    color.ofRGB 256 0 0 true = .error .mk :=
  ⟨by decide, rgb_out_of_range_error 256 0 0 true (by decide)⟩

/-- C6: for all components in `[0, 255]`, the 24-bit foreground token
renders to exactly `"\x1b[38;2;" ++ r ++ ";" ++ g ++ ";" ++ b ++ "m"`
(decimal component representations), and the background token renders the
same way with prefix `"48;2;"`. -/
theorem rgb_render_format (r g b : Int)
    (h : (0 ≤ r ∧ r ≤ 255) ∧ (0 ≤ g ∧ g ≤ 255) ∧ (0 ≤ b ∧ b ≤ 255)) :
    (∃ t, color.ofRGB r g b true = .ok t ∧
      t.toString = "\x1b[38;2;" ++ toString r ++ ";" ++ toString g ++ ";" ++
        toString b ++ "m") ∧
    (∃ t, color.ofRGB r g b false = .ok t ∧
      t.toString = "\x1b[48;2;" ++ toString r ++ ";" ++ toString g ++ ";" ++
        toString b ++ "m") := by
  have hv : (verifyColorComponent r && verifyColorComponent g &&
      verifyColorComponent b) = true := by
    simp only [verifyColorComponent, Bool.and_eq_true, decide_eq_true_eq,
      ge_iff_le]
    omega
  refine ⟨⟨⟨"38;2;" ++ toString r ++ ";" ++ toString g ++ ";" ++ toString b⟩,
      ?_, ?_⟩,
    ⟨⟨"48;2;" ++ toString r ++ ";" ++ toString g ++ ";" ++ toString b⟩,
      ?_, ?_⟩⟩
  · simp [color.ofRGB, hv]
  · show "\x1b[" ++ ("38;2;" ++ toString r ++ ";" ++ toString g ++ ";" ++
        toString b) ++ "m" = _
    rw [show ("\x1b[38;2;" : String) = "\x1b[" ++ "38;2;" from rfl]
    simp only [String.append_assoc]
  · simp [color.ofRGB, hv]
  · show "\x1b[" ++ ("48;2;" ++ toString r ++ ";" ++ toString g ++ ";" ++
        toString b) ++ "m" = _
    rw [show ("\x1b[48;2;" : String) = "\x1b[" ++ "48;2;" from rfl]
    simp only [String.append_assoc]

/-- Witness for C6 at `(255, 0, 127)`. -/
theorem rgb_render_format_witness :
    (((0:Int) ≤ 255 ∧ (255:Int) ≤ 255) ∧ ((0:Int) ≤ 0 ∧ (0:Int) ≤ 255) ∧
      ((0:Int) ≤ 127 ∧ (127:Int) ≤ 255)) ∧
    (∃ t, color.ofRGB 255 0 127 true = .ok t ∧
      t.toString = "\x1b[38;2;255;0;127m") ∧
    (∃ t, color.ofRGB 255 0 127 false = .ok t ∧
      t.toString = "\x1b[48;2;255;0;127m") := by
  have h := rgb_render_format 255 0 127 (by decide)
  refine ⟨by decide, ?_, ?_⟩
  · obtain ⟨t, ht, hs⟩ := h.1
    exact ⟨t, ht, by rw [hs]; decide⟩
  · obtain ⟨t, ht, hs⟩ := h.2
    exact ⟨t, ht, by rw [hs]; decide⟩

/-- C7: combining two tokens yields a token whose payload is the left
payload, `";"`, then the right payload; combining is associative; the comma
combinator produces the same token as the plus combinator; and
`combine(bold, underline)` renders to `"\x1b[1;4m"`. -/
theorem combine_payload_assoc :
    (∀ a b : sgr, (sgrAdd a b).str = a.str ++ ";" ++ b.str) ∧
    (∀ a b c : sgr, sgrAdd (sgrAdd a b) c = sgrAdd a (sgrAdd b c)) ∧
    (sgrAdd bold underline).toString = "\x1b[1;4m" ∧
    (∀ a b : sgr, sgrComma a b = sgrAdd a b) := by
  refine ⟨fun a b => rfl, fun a b c => ?_, by decide, fun a b => rfl⟩
  simp [sgrAdd, String.append_assoc]

/-- C8: for every one of the 16 indexed ANSI colors, the background token's
numeric payload is the foreground token's payload plus 10; normal colors
have foreground codes 30–37 (hence backgrounds 40–47) and bright colors
90–97 (hence backgrounds 100–107). -/
theorem bg_payload_eq_fg_plus_ten (c : ANSIColor) :
    (color.ofANSI c false).str = Nat.repr (c.val + 10) ∧
    (color.ofANSI c true).str = Nat.repr c.val ∧
    ((30 ≤ c.val ∧ c.val ≤ 37) ∨ (90 ≤ c.val ∧ c.val ≤ 97)) := by
  cases c <;> exact ⟨rfl, rfl, by decide⟩

/-- C9: the two session revisions are not output-equivalent: writing `bold`
then `underline` (both non-reset) through the `sgr_ostream` revision
interposes a reset sequence between the two escape strings, while the
`sgr_ostream_wrapper` revision writes the second escape string immediately
after the first, so the sinks receive different byte sequences. -/
theorem revisions_not_output_equivalent :
    bold.str ≠ reset.str ∧ underline.str ≠ reset.str ∧
    runOstreamStatement bold [.tok underline] ""
      = "\x1b[1m\x1b[0m\x1b[4m\x1b[0m" ∧
    runWrapperStatement bold [.tok underline] ""
      = "\x1b[1m\x1b[4m\x1b[0m" ∧
    runOstreamStatement bold [.tok underline] ""
      ≠ runWrapperStatement bold [.tok underline] "" := by decide

/-- C10: inserting a non-token value (plain printable data) through the
generic wrapper insertion writes exactly that value's bytes to the
underlying stream, emits no escape bytes of its own, leaves the
`shouldReset` flag (indeed the whole wrapper) unchanged, and returns the
very same wrapper rather than creating a new session. -/
theorem generic_insert_frame (w : sgr_ostream_wrapper) (sink t : String) :
    (w.insert sink t).1 = w ∧
    (w.insert sink t).1.shouldReset = w.shouldReset ∧
    (w.insert sink t).2 = sink ++ t :=
  ⟨rfl, rfl, rfl⟩

end cpp_sgr
